import Mathlib

/-!
Shallow embedding of the Marriage Counselor agent
(`src/agent.js`, deployment variant: `MarriageCounselorAgent`).

The program routes a turn to one of three fixed personas (modes), each
wired to its own tool set over a shared namespaced key/value store.
We embed:
  * the mode table `MODES` and mode lookup,
  * the store (`InMemoryStore`: `put(namespace, key, value)` /
    `get(namespace, key)`), both as a pure map and as a fallible
    interface for fault-propagation questions,
  * the three tools (`save_user_story`, `save_wife_story`,
    `get_both_stories`) with their exact result strings,
  * the per-mode prompt composer `getPromptFunction`,
  * `invoke`'s config derivation / merge and mode resolution,
  * `setMode`.
-/

namespace MarriageCounselor

/-- The three agent modes (`MODES`, agent.js lines 15-19). The JS object
maps the keys USER / WIFE / SOLOMON to the string values below; we keep
the keys as an inductive and expose the values via `modeStr`. -/
inductive Mode where
  | USER
  | WIFE
  | SOLOMON
deriving DecidableEq

/-- The string value `MODES[k]` of a mode (agent.js lines 16-18). -/
def modeStr : Mode → String
  | .USER => "my_point_of_view"
  | .WIFE => "her_point_of_view"
  | .SOLOMON => "king_solomon_wise"

/-- Lookup `MODES[k]` for an arbitrary (already upper-cased) key string.
Only the three own keys of the object are hit; every other key yields
`undefined` (`none`). -/
def lookupMode (k : String) : Option Mode :=
  if k = "USER" then some .USER
  else if k = "WIFE" then some .WIFE
  else if k = "SOLOMON" then some .SOLOMON
  else none

/-- A stored story record `{ content: input.story }` (agent.js line 91). -/
structure StoryVal where
  content : String
deriving DecidableEq

/-- Pure view of `InMemoryStore`: a map from (namespace, key) to an
optional stored value. -/
def Store : Type := List String → String → Option StoryVal

/-- `store.put(namespace, key, value)`: overwrite-at-key semantics. -/
def putStore (σ : Store) (ns : List String) (k : String) (v : StoryVal) : Store :=
  fun ns' k' => if ns' = ns ∧ k' = k then some v else σ ns' k'

/-- The store with no records. -/
def emptyStore : Store := fun _ _ => none

/-- The names of the three tools (agent.js lines 98, 127, 179). -/
inductive ToolName where
  | save_user_story
  | save_wife_story
  | get_both_stories
deriving DecidableEq

/-- The tool set wired into each mode's agent at `initialize`
(agent.js lines 45-47 and 50-72): `createUserModeTools`,
`createWifeModeTools`, `createSolomonModeTools` each return a
one-element list. -/
def toolsFor : Mode → List ToolName
  | .USER => [.save_user_story]
  | .WIFE => [.save_wife_story]
  | .SOLOMON => [.get_both_stories]

/-- The `configurable` part of an invocation config; `none` means the
property is absent. -/
structure Configurable where
  thread_id : Option String
  checkpoint_ns : Option String
  userId : Option String
  sessionId : Option String
deriving DecidableEq

/-- `config.configurable?.userId || 'default_user'` (agent.js line 88,
line 117, line 146). -/
def resolvedUserId (cfg : Configurable) : String :=
  cfg.userId.getD "default_user"

/-- Formatting block of `get_both_stories` (agent.js lines 162-176),
applied to the two looked-up story records. The literal text (including
the mojibake emoji bytes present in the source file) is kept verbatim.
Each side is guarded by the JavaScript truthiness test
`if (userStory?.value?.content)`: it takes the marker branch both when
the record is absent and when the stored content is the empty string
(an empty string is falsy in JS). -/
def formatBoth (userStory wifeStory : Option StoryVal) : String :=
  let r1 := "ðŸ“œ BOTH PERSPECTIVES:\n\n"
  let r2 := match userStory with
    | some v =>
        if v.content = "" then "ðŸ‘¤ **User\x27s Grievance:** No story shared yet\n\n"
        else "ðŸ‘¤ **User\x27s Grievance:** " ++ v.content ++ "\n\n"
    | none => "ðŸ‘¤ **User\x27s Grievance:** No story shared yet\n\n"
  let r3 := match wifeStory with
    | some v =>
        if v.content = "" then "ðŸ‘© **Wife\x27s Perspective:** No story shared yet"
        else "ðŸ‘© **Wife\x27s Perspective:** " ++ v.content
    | none => "ðŸ‘© **Wife\x27s Perspective:** No story shared yet"
  r1 ++ r2 ++ r3

/-- Pure behaviour of the `get_both_stories` tool (agent.js lines
139-177) over a non-faulting store: read `{userId}_user` and
`{userId}_wife` from the `stories` namespace and format both sides. -/
def getBothStories (σ : Store) (userId : String) : String :=
  let userStory := σ ["stories"] (userId ++ "_user")
  let wifeStory := σ ["stories"] (userId ++ "_wife")
  formatBoth userStory wifeStory

/-- Confirmation text returned by `save_user_story` (agent.js line 95). -/
def userConfirmText : String :=
  "I understand your perspective. I\x27ll remember this for any future counsel."

/-- Confirmation text returned by `save_wife_story` (agent.js line 124). -/
def wifeConfirmText : String :=
  "I understand her perspective on this situation."

/-- One tool execution over the pure store: returns the updated store
and the tool's textual result.
  * `save_user_story` (agent.js lines 81-104):
    `store.put(["stories"], userId + "_user", {content})`;
  * `save_wife_story` (agent.js lines 110-133):
    `store.put(["stories"], userId + "_wife", {content})`;
  * `get_both_stories` (agent.js lines 139-183): reads only. -/
def runTool (t : ToolName) (input : String) (cfg : Configurable) (σ : Store) :
    Store × String :=
  let userId := resolvedUserId cfg
  match t with
  | .save_user_story =>
      (putStore σ ["stories"] (userId ++ "_user") ⟨input⟩, userConfirmText)
  | .save_wife_story =>
      (putStore σ ["stories"] (userId ++ "_wife") ⟨input⟩, wifeConfirmText)
  | .get_both_stories =>
      (σ, getBothStories σ userId)

/-- A tool call as it happens inside a run: the mode whose agent
executes it, the tool, the invocation config and the tool input. -/
structure ToolCall where
  mode : Mode
  tool : ToolName
  cfg : Configurable
  input : String

/-- Structural wiring: a tool call that can occur in a run of the
system uses a tool from the executing mode's tool set (agent.js lines
50-72: each `createReactAgent` receives exactly the tools of its
mode). -/
def wellFormedCall (c : ToolCall) : Prop := c.tool ∈ toolsFor c.mode

instance (c : ToolCall) : Decidable (wellFormedCall c) := by
  unfold wellFormedCall; infer_instance

/-- The store transition of one tool call. -/
def callStep (c : ToolCall) (σ : Store) : Store :=
  (runTool c.tool c.input c.cfg σ).1

/-! ### Fallible store interface

`InMemoryStore` operations are awaited and may reject; the tools wrap
them in `try`/`catch`. We model a store backend as a pair of possibly
faulting operations to settle how faults propagate through each tool. -/

/-- A store backend whose `get`/`put` can fault (reject) with a
message. -/
structure EStore where
  getOp : List String → String → Except String (Option StoryVal)
  putOp : List String → String → StoryVal → Except String Unit

/-- `save_user_story` over a fallible backend (agent.js lines 82-96):
the `try { await store.put(...) } catch (storeError) { throw storeError }`
block rethrows any store fault, so a fault surfaces as a tool error. -/
def saveUserStoryE (es : EStore) (cfg : Configurable) (input : String) :
    Except String String :=
  let userId := resolvedUserId cfg
  match es.putOp ["stories"] (userId ++ "_user") ⟨input⟩ with
  | .error e => .error e
  | .ok _ => .ok userConfirmText

/-- `save_wife_story` over a fallible backend (agent.js lines 111-125):
same rethrowing `try`/`catch` around `store.put`. -/
def saveWifeStoryE (es : EStore) (cfg : Configurable) (input : String) :
    Except String String :=
  let userId := resolvedUserId cfg
  match es.putOp ["stories"] (userId ++ "_wife") ⟨input⟩ with
  | .error e => .error e
  | .ok _ => .ok wifeConfirmText

/-- `get_both_stories` over a fallible backend (agent.js lines 140-177):
each `store.get` sits in a `try { ... } catch (error) { ... = null }`
block, so a faulting read is replaced by `null` and formatting
proceeds; the tool itself always returns a string. -/
def getBothStoriesE (es : EStore) (cfg : Configurable) :
    Except String String :=
  let userId := resolvedUserId cfg
  let userStory := match es.getOp ["stories"] (userId ++ "_user") with
    | .error _ => none
    | .ok v => v
  let wifeStory := match es.getOp ["stories"] (userId ++ "_wife") with
    | .error _ => none
    | .ok v => v
  .ok (formatBoth userStory wifeStory)

/-- A backend whose every operation faults. -/
def faultyStore : EStore where
  getOp := fun _ _ => .error "store unavailable"
  putOp := fun _ _ _ => .error "store unavailable"

/-! ### Prompt composition (`getPromptFunction`, agent.js lines 188-240) -/

/-- A plain message object `{ role, content }`. -/
structure Msg where
  role : String
  content : String
deriving DecidableEq

/-- Static instruction template of the USER mode
(`systemMessages[MODES.USER]`, agent.js lines 190-199), verbatim. -/
def userTemplate : String := String.intercalate "\n"
  [ "You are a best friend who listens to the users stories and understands their perspective. You\x27re the friend who always has their back and makes them feel heard and validated."
  , ""
  , "CRITICAL: Whenever they share ANY relationship problems, complaints, or grievances about their wife/partner, you MUST call save_user_story to save those details for future counseling sessions. This includes ANY negative feelings, frustrations, or conflicts they mention."
  , ""
  , "Your approach:"
  , "- Listen and validate their feelings"
  , "- IMMEDIATELY call save_user_story when they share any relationship issues"
  , "- Ask follow-up questions to understand better  "
  , "- Give supportive advice based on what they tell you in the conversation"
  , "- Always save important grievances - this is essential for the counseling process" ]

/-- Static instruction template of the WIFE mode
(`systemMessages[MODES.WIFE]`, agent.js lines 201-210), verbatim. -/
def wifeTemplate : String := String.intercalate "\n"
  [ "You are role-playing as the wife responding to grievances being aired about you. You don\x27t know what specific complaints have been made, so ask them to tell you what they\x27re upset about."
  , ""
  , "CRITICAL: Whenever you give your perspective, explanation, or response to complaints, you MUST call save_wife_story to save your side of the story for future counseling sessions."
  , ""
  , "Your approach:"
  , "- Ask them to explain what they\x27re upset about if needed"
  , "- Respond authentically as the wife explaining your side"
  , "- IMMEDIATELY call save_wife_story after giving your perspective"
  , "- Be authentic - not neutral, but actually responding as someone defending themselves"
  , "- Always save your explanations and justifications for future reference" ]

/-- Static instruction template of the SOLOMON mode
(`systemMessages[MODES.SOLOMON]`, agent.js lines 212-224), verbatim. -/
def solomonTemplate : String := String.intercalate "\n"
  [ "You are King Solomon, the wise counselor who advises the user on where they went wrong and how to fix it. You must call get_both_stories to access both the user\x27s grievances and the wife\x27s responses before making recommendations."
  , ""
  , "Your approach:"
  , "- Review both sides objectively: \"I can see that you feel... and she feels...\""
  , "- Identify the real underlying issues beyond the surface complaints"
  , "- Give specific, actionable recommendations for both parties"
  , "- \"Here\x27s what I think you should try...\" "
  , "- \"She probably needs...\" and \"You probably need...\""
  , "- Suggest practical steps to improve the situation"
  , "- Address both people\x27s valid concerns"
  , "- Speak with wisdom but in a relatable, helpful way"
  , ""
  , "You\x27re the wise friend who sees the bigger picture and gives solid advice to help them actually work things out." ]

/-- `systemMessages[mode]` (agent.js lines 189-225). For the three
fixed modes the lookup always succeeds, so the
`|| "You are a helpful assistant."` fallback of line 227 is
unreachable. -/
def systemMessageFor : Mode → String
  | .USER => userTemplate
  | .WIFE => wifeTemplate
  | .SOLOMON => solomonTemplate

/-- The dynamic system message of a turn (agent.js lines 233-235):
template, then a trailer naming the mode string, userId and
sessionId. -/
def dynamicSystemMsg (mode : Mode) (userId sessionId : String) : String :=
  systemMessageFor mode ++ "\n\nSession Info: You are in " ++ modeStr mode ++
    " mode for user " ++ userId ++ " in session " ++ sessionId ++ "."

/-- The prompt function returned by `getPromptFunction(mode)`
(agent.js lines 229-239): resolve userId/sessionId with their
defaults, build the dynamic system message, and prepend it to the
thread's message state, which is passed through untouched. -/
def composePrompt (mode : Mode) (stateMessages : List Msg) (cfg : Configurable) :
    List Msg :=
  let userId := cfg.userId.getD "default_user"
  let sessionId := cfg.sessionId.getD "default_session"
  { role := "system", content := dynamicSystemMsg mode userId sessionId } :: stateMessages

/-! ### `invoke` (agent.js lines 242-281) and `setMode` (lines 284-290) -/

/-- Mutable agent state relevant to routing: `this.currentMode`. -/
structure AgentState where
  currentMode : Mode
deriving DecidableEq

/-- Constructor default (agent.js line 23): Solomon. -/
def initialState : AgentState := { currentMode := .SOLOMON }

/-- The thread key derivation used by `invoke`
(agent.js line 248): `` `${mode}_${sessionId}` ``. -/
def threadKey (p : Mode) (sessionId : String) : String :=
  modeStr p ++ "_" ++ sessionId

/-- The `defaultConfig.configurable` object built by `invoke`
(agent.js lines 246-253). Note the thread id uses the raw session
fallback `'default'` while the `sessionId` field falls back to
`'default_session'`. -/
def defaultConfigurable (current : Mode) (cfg : Configurable) : Configurable where
  thread_id := some (threadKey current (cfg.sessionId.getD "default"))
  checkpoint_ns := some ""
  userId := some (cfg.userId.getD "default_user")
  sessionId := some (cfg.sessionId.getD "default_session")

/-- The object-spread merge of agent.js lines 255-262:
`{...defaultConfig.configurable, ...config.configurable}` — a property
present on the caller's configurable wins over the default. -/
def mergeConfigurable (d c : Configurable) : Configurable where
  thread_id := c.thread_id.orElse fun _ => d.thread_id
  checkpoint_ns := c.checkpoint_ns.orElse fun _ => d.checkpoint_ns
  userId := c.userId.orElse fun _ => d.userId
  sessionId := c.sessionId.orElse fun _ => d.sessionId

/-- JavaScript's `String.prototype.toUpperCase()`, modelled as the
character-wise uppercase map (it agrees with JS on the ASCII keys this
program compares against). `String.toUpper` in core is definitionally
opaque to evaluation, so we spell out the same map. -/
def jsToUpper (s : String) : String := ⟨s.data.map Char.toUpper⟩

/-- Mode resolution of agent.js lines 264-268:
`if (input.mode && MODES[input.mode.toUpperCase()]) { ... }` —
an absent, empty (falsy) or unrecognized `input.mode` leaves the
current mode in force. -/
def resolveMode (current : Mode) (inputMode : Option String) : Mode :=
  match inputMode with
  | none => current
  | some m =>
    if m = "" then current
    else
      match lookupMode (jsToUpper m) with
      | some md => md
      | none => current

/-- Which agents exist. After `initialize` (agent.js lines 50-72) every
mode's agent has been created. -/
def agentsAfterInit : Mode → Bool := fun _ => true

/-- What `invoke` hands to the selected agent: the executing mode and
the merged config (thread id, identities). -/
structure TurnPlan where
  mode : Mode
  config : Configurable
deriving DecidableEq

/-- `MarriageCounselorAgent.invoke` up to the delegation to the
underlying react agent (agent.js lines 242-278): build the default
configurable, merge with the caller's, resolve the mode, and fail only
if no agent exists for the resolved mode (line 270-272). -/
def invokeAgent (agents : Mode → Bool) (st : AgentState)
    (inputMode : Option String) (cfg : Configurable) : Except String TurnPlan :=
  let merged := mergeConfigurable (defaultConfigurable st.currentMode cfg) cfg
  let mode := resolveMode st.currentMode inputMode
  if agents mode then
    .ok { mode := mode, config := merged }
  else
    .error ("Agent not initialized for mode: " ++ modeStr mode)

/-- `setMode` (agent.js lines 284-290): if the upper-cased argument is
a key of `MODES`, switch `currentMode` and return true; otherwise
return false and change nothing. -/
def setMode (st : AgentState) (m : String) : Bool × AgentState :=
  match lookupMode (jsToUpper m) with
  | some md => (true, { currentMode := md })
  | none => (false, st)

/-! ### Helper lemmas on string concatenation -/

/-- Two strings with equal character data are equal. -/
theorem string_data_eq {s t : String} (h : s.data = t.data) : s = t := by
  cases s; cases t; exact congrArg String.mk h

/-- Right cancellation for string concatenation. -/
theorem string_append_right_cancel {s t u : String} (h : s ++ u = t ++ u) :
    s = t := by
  have hd : (s ++ u).data = (t ++ u).data := by rw [h]
  rw [String.data_append, String.data_append] at hd
  exact string_data_eq (List.append_cancel_right hd)

/-- Left cancellation for string concatenation. -/
theorem string_append_left_cancel {s t u : String} (h : u ++ s = u ++ t) :
    s = t := by
  have hd : (u ++ s).data = (u ++ t).data := by rw [h]
  rw [String.data_append, String.data_append] at hd
  exact string_data_eq (List.append_cancel_left hd)

/-- A key of the form `u ++ "_user"` is never a key of the form
`w ++ "_wife"`: the two five-character suffixes differ. -/
theorem user_key_ne_wife_key (u w : String) : u ++ "_user" ≠ w ++ "_wife" := by
  intro h
  have hd : (u ++ "_user").data = (w ++ "_wife").data := by rw [h]
  rw [String.data_append, String.data_append] at hd
  have := List.append_inj' hd (by decide)
  simp at this

/-- Unfolding lemma: `save_user_story` writes exactly the
`{userId}_user` key of the `stories` namespace. -/
theorem runTool_save_user (input : String) (cfg : Configurable) (σ : Store) :
    runTool .save_user_story input cfg σ =
      (putStore σ ["stories"] (resolvedUserId cfg ++ "_user") ⟨input⟩,
       userConfirmText) := rfl

/-- Unfolding lemma: `save_wife_story` writes exactly the
`{userId}_wife` key of the `stories` namespace. -/
theorem runTool_save_wife (input : String) (cfg : Configurable) (σ : Store) :
    runTool .save_wife_story input cfg σ =
      (putStore σ ["stories"] (resolvedUserId cfg ++ "_wife") ⟨input⟩,
       wifeConfirmText) := rfl

/-- Unfolding lemma: `get_both_stories` leaves the store untouched. -/
theorem runTool_get_both (input : String) (cfg : Configurable) (σ : Store) :
    runTool .get_both_stories input cfg σ =
      (σ, getBothStories σ (resolvedUserId cfg)) := rfl

/-- Pointwise behaviour of `putStore`. -/
theorem putStore_apply (σ : Store) (ns0 : List String) (k0 : String)
    (v : StoryVal) (ns : List String) (k : String) :
    putStore σ ns0 k0 v ns k = if ns = ns0 ∧ k = k0 then some v else σ ns k := rfl

/-- C1: in every run made of well-formed tool calls (each call's tool
belongs to the executing mode's tool set, as `initialize` wires them),
any observable store write at a key of the form `u ++ "_user"` is
performed by `save_user_story` running under the USER (Advocate) mode,
and any write at a key of the form `w ++ "_wife"` is performed by
`save_wife_story` running under the WIFE (OpposingRolePlay) mode; no
other mode's tool set can cause either write. -/
theorem C1_store_write_mode_gating :
    ∀ (run : List ToolCall), (∀ c ∈ run, wellFormedCall c) →
    ∀ c ∈ run, ∀ (σ : Store) (ns : List String) (k : String),
      callStep c σ ns k ≠ σ ns k →
      (∀ u : String, k = u ++ "_user" →
        c.mode = Mode.USER ∧ c.tool = ToolName.save_user_story ∧
          c.tool ∈ toolsFor Mode.USER) ∧
      (∀ w : String, k = w ++ "_wife" →
        c.mode = Mode.WIFE ∧ c.tool = ToolName.save_wife_story ∧
          c.tool ∈ toolsFor Mode.WIFE) := by
  intro run hwf c hc σ ns k hchange
  have hwfc : c.tool ∈ toolsFor c.mode := hwf c hc
  obtain ⟨mode, tool, cfg, input⟩ := c
  simp only at hwfc hchange ⊢
  cases tool with
  | get_both_stories =>
      exact absurd rfl hchange
  | save_user_story =>
      rw [show callStep ⟨mode, .save_user_story, cfg, input⟩ σ =
            putStore σ ["stories"] (resolvedUserId cfg ++ "_user") ⟨input⟩ from rfl,
          putStore_apply] at hchange
      by_cases hcond : ns = ["stories"] ∧ k = resolvedUserId cfg ++ "_user"
      · obtain ⟨hns, hk⟩ := hcond
        constructor
        · intro u hu
          refine ⟨?_, rfl, by decide⟩
          cases mode with
          | USER => rfl
          | WIFE => simp [toolsFor] at hwfc
          | SOLOMON => simp [toolsFor] at hwfc
        · intro w hw
          exact absurd (hk.symm.trans hw) (user_key_ne_wife_key _ w)
      · rw [if_neg hcond] at hchange
        exact absurd rfl hchange
  | save_wife_story =>
      rw [show callStep ⟨mode, .save_wife_story, cfg, input⟩ σ =
            putStore σ ["stories"] (resolvedUserId cfg ++ "_wife") ⟨input⟩ from rfl,
          putStore_apply] at hchange
      by_cases hcond : ns = ["stories"] ∧ k = resolvedUserId cfg ++ "_wife"
      · obtain ⟨hns, hk⟩ := hcond
        constructor
        · intro u hu
          exact absurd (hu.symm.trans hk) ((user_key_ne_wife_key u _))
        · intro w hw
          refine ⟨?_, rfl, by decide⟩
          cases mode with
          | USER => simp [toolsFor] at hwfc
          | WIFE => rfl
          | SOLOMON => simp [toolsFor] at hwfc
      · rw [if_neg hcond] at hchange
        exact absurd rfl hchange

/-- Witness for C1: a concrete one-call run in which the USER-mode
agent writes `"u1_user"`, and the theorem identifies the writer. -/
theorem C1_store_write_mode_gating_witness :
    (⟨Mode.USER, ToolName.save_user_story, ⟨none, none, some "u1", none⟩, "s"⟩ :
      ToolCall).mode = Mode.USER ∧
    (⟨Mode.USER, ToolName.save_user_story, ⟨none, none, some "u1", none⟩, "s"⟩ :
      ToolCall).tool ∈ toolsFor Mode.USER := by
  have h := C1_store_write_mode_gating
    [⟨Mode.USER, ToolName.save_user_story, ⟨none, none, some "u1", none⟩, "s"⟩]
    (by intro c hc; simp at hc; subst hc; decide)
    ⟨Mode.USER, ToolName.save_user_story, ⟨none, none, some "u1", none⟩, "s"⟩
    (by simp)
    emptyStore ["stories"] "u1_user"
    (by rw [show callStep ⟨Mode.USER, ToolName.save_user_story,
              ⟨none, none, some "u1", none⟩, "s"⟩ emptyStore ["stories"] "u1_user" =
            some ⟨"s"⟩ from rfl]
        simp [emptyStore])
  obtain ⟨h1, -⟩ := h
  obtain ⟨hm, ht, hmem⟩ := h1 "u1" rfl
  exact ⟨hm, hmem⟩

/-- C2 counterexample: with the constructor-default state
(`currentMode = SOLOMON`) and a per-turn mode override `"USER"`, the
turn is handled by the USER persona but the thread id actually used is
derived from `currentMode` (`king_solomon_wise_s1`), which is not the
handling persona's thread key. -/
theorem C2_thread_key_counterexample :
    invokeAgent agentsAfterInit initialState (some "USER")
        ⟨none, none, none, some "s1"⟩ =
      .ok ⟨Mode.USER,
        ⟨some "king_solomon_wise_s1", some "", some "default_user", some "s1"⟩⟩ ∧
    "king_solomon_wise_s1" ≠ threadKey Mode.USER "s1" := by
  exact ⟨rfl, by decide⟩

/-- C2 (amended): the thread-key derivation is injective in both the
persona and the session; however the thread id `invoke` actually uses
(absent a caller-supplied `thread_id`) is derived from the agent's
`currentMode`, not from the per-turn mode that handles the turn — the
two coincide only when the handling persona is `currentMode`. -/
theorem C2_threadKey_injective_currentMode :
    (∀ (p1 p2 : Mode) (s : String), p1 ≠ p2 → threadKey p1 s ≠ threadKey p2 s) ∧
    (∀ (p : Mode) (s1 s2 : String), s1 ≠ s2 → threadKey p s1 ≠ threadKey p s2) ∧
    (∀ (agents : Mode → Bool) (st : AgentState) (im : Option String)
        (cfg : Configurable) (tp : TurnPlan),
      cfg.thread_id = none → invokeAgent agents st im cfg = .ok tp →
      tp.config.thread_id =
        some (threadKey st.currentMode (cfg.sessionId.getD "default"))) := by
  refine ⟨?_, ?_, ?_⟩
  · intro p1 p2 s hne h
    have h2 := string_append_right_cancel (u := s) h
    cases p1 <;> cases p2 <;> first
      | exact hne rfl
      | exact absurd h2 (by decide)
  · intro p s1 s2 hne h
    exact hne (string_append_left_cancel (u := modeStr p ++ "_") h)
  · intro agents st im cfg tp hnone hok
    unfold invokeAgent at hok
    by_cases hag : agents (resolveMode st.currentMode im)
    · rw [if_pos hag] at hok
      cases hok
      simp [mergeConfigurable, defaultConfigurable, hnone, Option.orElse]
    · rw [if_neg hag] at hok
      cases hok

/-- Witness for C2 (amended): concrete distinct personas and sessions
give distinct thread keys, and a concrete `invoke` without a caller
`thread_id` uses the `currentMode`-derived key. -/
theorem C2_threadKey_injective_currentMode_witness :
    threadKey Mode.USER "s1" ≠ threadKey Mode.WIFE "s1" ∧
    threadKey Mode.USER "s1" ≠ threadKey Mode.USER "s2" ∧
    (⟨some "king_solomon_wise_s1", some "", some "default_user", some "s1"⟩ :
      Configurable).thread_id = some (threadKey Mode.SOLOMON "s1") := by
  refine ⟨C2_threadKey_injective_currentMode.1 _ _ _ (by decide),
          C2_threadKey_injective_currentMode.2.1 _ _ _ (by decide), ?_⟩
  exact C2_threadKey_injective_currentMode.2.2 agentsAfterInit initialState none
    ⟨none, none, none, some "s1"⟩
    ⟨Mode.SOLOMON, ⟨some "king_solomon_wise_s1", some "", some "default_user", some "s1"⟩⟩
    rfl rfl

/-- C3 counterexample: invoking with the persona identifier
`"unknown"` does not fail at all — there is no `UnknownPersonaError`
in the code; the call silently resolves to the current mode
(SOLOMON by default) and proceeds. -/
theorem C3_unknown_persona_counterexample :
    invokeAgent agentsAfterInit initialState (some "unknown")
        ⟨none, none, none, some "s1"⟩ =
      .ok ⟨Mode.SOLOMON,
        ⟨some "king_solomon_wise_s1", some "", some "default_user", some "s1"⟩⟩ ∧
    (invokeAgent agentsAfterInit initialState (some "unknown")
        ⟨none, none, none, some "s1"⟩).isOk = true := ⟨rfl, rfl⟩

/-- C3 (amended): an unrecognized persona identifier does not raise an
error; `invoke` silently falls back to `currentMode` and the turn
proceeds under that persona (whose tools may then access the store). -/
theorem C3_unknown_persona_falls_back :
    ∀ (st : AgentState) (cfg : Configurable) (m : String),
      lookupMode (jsToUpper m) = none →
      invokeAgent agentsAfterInit st (some m) cfg =
        .ok ⟨st.currentMode,
          mergeConfigurable (defaultConfigurable st.currentMode cfg) cfg⟩ := by
  intro st cfg m h
  by_cases hm : m = "" <;>
    simp [invokeAgent, resolveMode, agentsAfterInit, h, hm]

/-- Witness for C3 (amended): the fall-back at the concrete persona
string `"unknown"`. -/
theorem C3_unknown_persona_falls_back_witness :
    invokeAgent agentsAfterInit initialState (some "unknown")
        ⟨none, none, none, some "s1"⟩ =
      .ok ⟨initialState.currentMode,
        mergeConfigurable
          (defaultConfigurable initialState.currentMode ⟨none, none, none, some "s1"⟩)
          ⟨none, none, none, some "s1"⟩⟩ :=
  C3_unknown_persona_falls_back initialState ⟨none, none, none, some "s1"⟩
    "unknown" rfl

/-- C4 counterexample: invoking with neither `userId` nor `sessionId`
does not fail — there is no `MissingIdentityError`; the call succeeds
with the implicit defaults `default_user` / `default_session`
(`default` in the thread id), and the save tool invoked without a
`userId` writes under `default_user`. -/
theorem C4_missing_identity_counterexample :
    invokeAgent agentsAfterInit initialState none ⟨none, none, none, none⟩ =
      .ok ⟨Mode.SOLOMON,
        ⟨some "king_solomon_wise_default", some "", some "default_user",
         some "default_session"⟩⟩ ∧
    (runTool .save_user_story "s" ⟨none, none, none, none⟩ emptyStore).1
        ["stories"] "default_user_user" = some ⟨"s"⟩ := ⟨rfl, rfl⟩

/-- C4 (amended): a call without `userId`/`sessionId` succeeds, with
the implicit identities `default_user` and `default_session`
substituted in the merged config (and `default` in the derived thread
id), and `save_user_story` run without a `userId` writes under the
`default_user` identity. -/
theorem C4_missing_identity_defaults :
    ∀ (st : AgentState) (im : Option String) (input : String) (σ : Store),
      invokeAgent agentsAfterInit st im ⟨none, none, none, none⟩ =
        .ok ⟨resolveMode st.currentMode im,
          ⟨some (threadKey st.currentMode "default"), some "",
           some "default_user", some "default_session"⟩⟩ ∧
      (runTool .save_user_story input ⟨none, none, none, none⟩ σ).1
          ["stories"] ("default_user" ++ "_user") = some ⟨input⟩ := by
  intro st im input σ
  constructor
  · simp [invokeAgent, agentsAfterInit, mergeConfigurable, defaultConfigurable,
      Option.orElse]
  · rw [show (runTool .save_user_story input ⟨none, none, none, none⟩ σ).1 =
        putStore σ ["stories"] ("default_user" ++ "_user") ⟨input⟩ from rfl,
      putStore_apply]
    simp

/-- C5 counterexample: a stored record with empty content is not
returned verbatim. After `save_user_story` writes `{content: ""}` for
`u1` the record is present in the store, yet the combined read renders
the "No story shared yet" marker for that side instead of the stored
(empty) text — the JS truthiness guard `userStory?.value?.content`
treats the empty string like an absent record. -/
theorem C5_empty_content_counterexample :
    ((runTool .save_user_story "" ⟨none, none, some "u1", none⟩ emptyStore).1)
        ["stories"] "u1_user" = some ⟨""⟩ ∧
    getBothStories
        ((runTool .save_user_story "" ⟨none, none, some "u1", none⟩ emptyStore).1)
        "u1" =
      "ðŸ“œ BOTH PERSPECTIVES:\n\nðŸ‘¤ **User\x27s Grievance:** No story shared yet\n\nðŸ‘© **Wife\x27s Perspective:** No story shared yet" :=
  ⟨rfl, rfl⟩

/-- C5 (amended): the Arbiter's combined-read tool (a) never returns
an error on any store backend, (b) with both records absent returns
the text with the "No story shared yet" marker for both sides, and
(c) after the two sides' save tools have written non-empty contents
`cu` and `cw`, returns both texts verbatim, user side first, opposing
side second; a stored empty content is rendered as the marker, since
the source guards each side with the JS truthiness test
`userStory?.value?.content`. -/
theorem C5_get_both_stories_total_verbatim :
    (∀ (es : EStore) (cfg : Configurable),
      ∃ out, getBothStoriesE es cfg = .ok out) ∧
    (∀ (σ : Store) (u : String),
      σ ["stories"] (u ++ "_user") = none →
      σ ["stories"] (u ++ "_wife") = none →
      getBothStories σ u =
        "ðŸ“œ BOTH PERSPECTIVES:\n\nðŸ‘¤ **User\x27s Grievance:** No story shared yet\n\nðŸ‘© **Wife\x27s Perspective:** No story shared yet") ∧
    (∀ (σ : Store) (u cu cw : String), cu ≠ "" → cw ≠ "" →
      getBothStories
        ((runTool .save_wife_story cw ⟨none, none, some u, none⟩
          ((runTool .save_user_story cu ⟨none, none, some u, none⟩ σ).1)).1) u =
        "ðŸ“œ BOTH PERSPECTIVES:\n\n" ++
          ("ðŸ‘¤ **User\x27s Grievance:** " ++ cu ++ "\n\n") ++
          ("ðŸ‘© **Wife\x27s Perspective:** " ++ cw)) := by
  refine ⟨?_, ?_, ?_⟩
  · intro es cfg
    exact ⟨_, rfl⟩
  · intro σ u hu hw
    simp [getBothStories, formatBoth, hu, hw]
  · intro σ u cu cw hcu hcw
    have hne : u ++ "_user" ≠ u ++ "_wife" := user_key_ne_wife_key u u
    simp only [runTool_save_user, runTool_save_wife,
      show resolvedUserId ⟨none, none, some u, none⟩ = u from rfl]
    simp [getBothStories, formatBoth, putStore_apply, hne, hcu, hcw]

/-- Witness for C5 (amended): the empty store satisfies the absence
hypotheses, and concrete non-empty contents round-trip verbatim. -/
theorem C5_get_both_stories_total_verbatim_witness :
    getBothStories emptyStore "u1" =
      "ðŸ“œ BOTH PERSPECTIVES:\n\nðŸ‘¤ **User\x27s Grievance:** No story shared yet\n\nðŸ‘© **Wife\x27s Perspective:** No story shared yet" ∧
    getBothStories
        ((runTool .save_wife_story "w-story" ⟨none, none, some "u1", none⟩
          ((runTool .save_user_story "u-story" ⟨none, none, some "u1", none⟩
            emptyStore).1)).1) "u1" =
      "ðŸ“œ BOTH PERSPECTIVES:\n\nðŸ‘¤ **User\x27s Grievance:** u-story\n\nðŸ‘© **Wife\x27s Perspective:** w-story" := by
  refine ⟨C5_get_both_stories_total_verbatim.2.1 emptyStore "u1" rfl rfl, ?_⟩
  exact C5_get_both_stories_total_verbatim.2.2 emptyStore "u1" "u-story" "w-story"
    (by decide) (by decide)

/-- C6 counterexample: on a backend whose every `get` faults, the
Arbiter's combined-read tool swallows the fault and returns the
ordinary "No story shared yet" text as a successful result — the store
failure is not surfaced as a tool-execution error. -/
theorem C6_store_fault_counterexample :
    faultyStore.getOp ["stories"] "u1_user" = .error "store unavailable" ∧
    getBothStoriesE faultyStore ⟨none, none, some "u1", none⟩ =
      .ok "ðŸ“œ BOTH PERSPECTIVES:\n\nðŸ‘¤ **User\x27s Grievance:** No story shared yet\n\nðŸ‘© **Wife\x27s Perspective:** No story shared yet" :=
  ⟨rfl, rfl⟩

/-- C6 (amended): store faults during the two save tools are rethrown
and surface as tool-execution errors, but faults during the Arbiter's
combined read are caught and rendered as the absent-story marker — the
read path never errors. -/
theorem C6_fault_propagation :
    (∀ (es : EStore) (cfg : Configurable) (input e : String),
      es.putOp ["stories"] (resolvedUserId cfg ++ "_user") ⟨input⟩ = .error e →
      saveUserStoryE es cfg input = .error e) ∧
    (∀ (es : EStore) (cfg : Configurable) (input e : String),
      es.putOp ["stories"] (resolvedUserId cfg ++ "_wife") ⟨input⟩ = .error e →
      saveWifeStoryE es cfg input = .error e) ∧
    (∀ (es : EStore) (cfg : Configurable),
      ∃ out, getBothStoriesE es cfg = .ok out) := by
  refine ⟨?_, ?_, ?_⟩
  · intro es cfg input e h
    simp [saveUserStoryE, h]
  · intro es cfg input e h
    simp [saveWifeStoryE, h]
  · intro es cfg
    exact ⟨_, rfl⟩

/-- Witness for C6 (amended): on the all-faulting backend the save
tool errors while the combined read still succeeds. -/
theorem C6_fault_propagation_witness :
    saveUserStoryE faultyStore ⟨none, none, some "u1", none⟩ "s" =
      .error "store unavailable" ∧
    saveWifeStoryE faultyStore ⟨none, none, some "u1", none⟩ "s" =
      .error "store unavailable" ∧
    ∃ out, getBothStoriesE faultyStore ⟨none, none, some "u1", none⟩ = .ok out := by
  refine ⟨C6_fault_propagation.1 faultyStore ⟨none, none, some "u1", none⟩ "s"
            "store unavailable" rfl,
          C6_fault_propagation.2.1 faultyStore ⟨none, none, some "u1", none⟩ "s"
            "store unavailable" rfl,
          C6_fault_propagation.2.2 faultyStore ⟨none, none, some "u1", none⟩⟩

/-- C7: for every persona, history, userId and sessionId, the prompt
composer emits exactly the persona's static template concatenated with
the dynamic trailer naming the mode string, userId and sessionId,
followed by the prior history unchanged (same messages, same order,
nothing truncated or summarized). -/
theorem C7_compose_prompt_shape :
    ∀ (mode : Mode) (history : List Msg) (u s : String),
      composePrompt mode history ⟨none, none, some u, some s⟩ =
        { role := "system",
          content := systemMessageFor mode ++ "\n\nSession Info: You are in " ++
            modeStr mode ++ " mode for user " ++ u ++ " in session " ++ s ++ "." } ::
          history ∧
      (composePrompt mode history ⟨none, none, some u, some s⟩).drop 1 = history ∧
      (composePrompt mode history ⟨none, none, some u, some s⟩).length =
        history.length + 1 :=
  fun _ _ _ _ => ⟨rfl, rfl, by simp [composePrompt]⟩

/-- C8: writing the same content twice to the same key leaves the
store observably identical to writing it once — both for the raw
`put` and for the `save_user_story` tool. -/
theorem C8_put_idempotent :
    (∀ (σ : Store) (ns : List String) (k : String) (v : StoryVal)
        (ns' : List String) (k' : String),
      putStore (putStore σ ns k v) ns k v ns' k' = putStore σ ns k v ns' k') ∧
    (∀ (σ : Store) (cfg : Configurable) (input : String)
        (ns' : List String) (k' : String),
      (runTool .save_user_story input cfg
        ((runTool .save_user_story input cfg σ).1)).1 ns' k' =
      (runTool .save_user_story input cfg σ).1 ns' k') := by
  constructor
  · intro σ ns k v ns' k'
    by_cases h : ns' = ns ∧ k' = k <;> simp [putStore_apply, h]
  · intro σ cfg input ns' k'
    simp only [runTool_save_user]
    by_cases h : ns' = ["stories"] ∧ k' = resolvedUserId cfg ++ "_user" <;>
      simp [putStore_apply, h]

/-- C9: a caller-supplied `configurable.thread_id` wins over the
internally derived `` `${currentMode}_${sessionId}` `` key in the
config merge, so the (persona, session) thread-isolation guarantee
holds only for callers that do not pass `thread_id`. -/
theorem C9_caller_thread_id_precedence :
    (∀ (d c : Configurable) (t : String),
      c.thread_id = some t → (mergeConfigurable d c).thread_id = some t) ∧
    (∀ (agents : Mode → Bool) (st : AgentState) (im : Option String)
        (cfg : Configurable) (t : String) (tp : TurnPlan),
      cfg.thread_id = some t → invokeAgent agents st im cfg = .ok tp →
      tp.config.thread_id = some t) := by
  constructor
  · intro d c t h
    simp [mergeConfigurable, h, Option.orElse]
  · intro agents st im cfg t tp h hok
    unfold invokeAgent at hok
    by_cases hag : agents (resolveMode st.currentMode im)
    · rw [if_pos hag] at hok
      cases hok
      simp [mergeConfigurable, h, Option.orElse]
    · rw [if_neg hag] at hok
      cases hok

/-- Witness for C9: a caller passing the USER persona's thread key
while the agent is in WIFE mode gets that exact thread id back out of
`invoke` — the two personas would share one thread. -/
theorem C9_caller_thread_id_precedence_witness :
    (mergeConfigurable
      (defaultConfigurable Mode.WIFE
        ⟨some "my_point_of_view_s1", none, none, some "s1"⟩)
      ⟨some "my_point_of_view_s1", none, none, some "s1"⟩).thread_id =
      some "my_point_of_view_s1" ∧
    (⟨Mode.WIFE,
      ⟨some "my_point_of_view_s1", some "", some "default_user", some "s1"⟩⟩ :
        TurnPlan).config.thread_id = some "my_point_of_view_s1" := by
  refine ⟨C9_caller_thread_id_precedence.1 _ _ "my_point_of_view_s1" rfl, ?_⟩
  exact C9_caller_thread_id_precedence.2 agentsAfterInit ⟨Mode.WIFE⟩ none
    ⟨some "my_point_of_view_s1", none, none, some "s1"⟩ "my_point_of_view_s1"
    ⟨Mode.WIFE,
      ⟨some "my_point_of_view_s1", some "", some "default_user", some "s1"⟩⟩
    rfl rfl

/-- C10: `setMode` returns true and switches `currentMode` exactly when
the argument upper-cases to one of the three mode keys; any other
string yields false with the state unchanged (and the function is
total — it never throws). -/
theorem C10_setMode_spec :
    ∀ (st : AgentState) (m : String),
      setMode st m =
        if jsToUpper m = "USER" then (true, { currentMode := Mode.USER })
        else if jsToUpper m = "WIFE" then (true, { currentMode := Mode.WIFE })
        else if jsToUpper m = "SOLOMON" then (true, { currentMode := Mode.SOLOMON })
        else (false, st) := by
  intro st m
  unfold setMode lookupMode
  by_cases h1 : jsToUpper m = "USER" <;>
    by_cases h2 : jsToUpper m = "WIFE" <;>
      by_cases h3 : jsToUpper m = "SOLOMON" <;>
        simp [h1, h2, h3]

end MarriageCounselor
